import Mathlib

/-!
Shallow embedding of the Conversational Task Orchestration Core of the
`context-kit-service` repository, together with theorems settling the
specification claims about it.

Conventions of the embedding:
* Python `datetime` instants are modeled as natural numbers; each mutator that
  calls `datetime.now()` takes the current instant as an explicit argument.
* `datetime.isoformat` / `datetime.fromisoformat` are modeled as an injective
  rendering of the instant into a string together with its partial inverse,
  whose parse fails on non-conforming strings; injectivity plus parse failure
  on garbage is all the source relies on.
* Python exceptions are modeled with `Except`; the error type `PyError`
  distinguishes the exception classes the source branches on.
* `uuid4()` results are modeled as explicitly passed identifier strings.
-/

namespace ContextKit

/-- Task execution status, from `domain/value_objects/task_status.py`
(`TaskStatus(str, Enum)` with values pending/streaming/succeeded/failed/cancelled). -/
inductive TaskStatus where
  | pending
  | streaming
  | succeeded
  | failed
  | cancelled
deriving DecidableEq, Repr

/-- String value of a `TaskStatus`, from the enum member values in
`task_status.py`. -/
def TaskStatus.value : TaskStatus → String
  | .pending => "pending"
  | .streaming => "streaming"
  | .succeeded => "succeeded"
  | .failed => "failed"
  | .cancelled => "cancelled"

/-- Embedding of `TaskStatus.is_terminal` (`task_status.py` lines 22-33):
true exactly on succeeded, failed and cancelled. -/
def TaskStatus.isTerminal : TaskStatus → Bool
  | .succeeded => true
  | .failed => true
  | .cancelled => true
  | _ => false

/-- Embedding of `TaskStatus.is_active` (`task_status.py` lines 35-46). -/
def TaskStatus.isActive : TaskStatus → Bool
  | .pending => true
  | .streaming => true
  | _ => false

/-- Task action type, from `TaskActionType(str, Enum)` in `task_status.py`. -/
inductive TaskActionType where
  | prompt
  | toolExecution
  | pipelineRun
  | fileRead
deriving DecidableEq, Repr

/-- String value of a `TaskActionType`. -/
def TaskActionType.value : TaskActionType → String
  | .prompt => "prompt"
  | .toolExecution => "tool_execution"
  | .pipelineRun => "pipeline_run"
  | .fileRead => "file_read"

/-- Embedding of `TaskActionType(value)` construction: succeeds on a known enum
value string, raises `ValueError` otherwise. -/
def TaskActionType.ofValue : String → Option TaskActionType
  | "prompt" => some .prompt
  | "tool_execution" => some .toolExecution
  | "pipeline_run" => some .pipelineRun
  | "file_read" => some .fileRead
  | _ => none

/-- Embedding of `TaskStatus(value)` construction. -/
def TaskStatus.ofValue : String → Option TaskStatus
  | "pending" => some .pending
  | "streaming" => some .streaming
  | "succeeded" => some .succeeded
  | "failed" => some .failed
  | "cancelled" => some .cancelled
  | _ => none

/-- Output record appended to `Task._outputs`. In the source outputs are
dicts; the core only ever constructs records shaped
`\x7b"type": ..., "content": ...\x7d` (see `Task.fail`, `SendMessageUseCase`),
so the embedding uses a two-field record. -/
structure Output where
  type_ : String
  content : String
deriving DecidableEq, Repr

/-- Embedding of the `Task` entity state (`domain/entities/task.py`).
Fields mirror the constructor parameters; the identifier is the string
rendering of the UUID. -/
structure Task where
  taskId : String
  actionType : TaskActionType
  status : TaskStatus
  createdAt : Nat
  firstResponseAt : Option Nat := none
  completedAt : Option Nat := none
  outputs : List Output := []
deriving DecidableEq, Repr

/-- Embedding of `Task.start` (`task.py` lines 55-60): raises `ValueError`
unless the status is `pending`; otherwise sets status to `streaming` and
records the first-response instant. -/
def Task.start (t : Task) (now : Nat) : Except String Task :=
  if t.status ≠ TaskStatus.pending then
    .error ("Cannot start task in status " ++ t.status.value)
  else
    .ok { t with status := TaskStatus.streaming, firstResponseAt := some now }

/-- Embedding of `Task.succeed` (`task.py` lines 62-67): unconditionally sets
status to `succeeded`, records completion time, and appends the output when one
is provided (Python `if output:`; `none` models a falsy argument). -/
def Task.succeed (t : Task) (now : Nat) (output : Option Output) : Task :=
  { t with
    status := TaskStatus.succeeded
    completedAt := some now
    outputs := match output with
      | some o => t.outputs ++ [o]
      | none => t.outputs }

/-- Embedding of `Task.fail` (`task.py` lines 69-73): unconditionally sets
status to `failed`, records completion time, and appends an error output. -/
def Task.fail (t : Task) (now : Nat) (error : String) : Task :=
  { t with
    status := TaskStatus.failed
    completedAt := some now
    outputs := t.outputs ++ [Output.mk "error" error] }

/-- Embedding of `Task.create` (`task.py` lines 75-86): fresh pending task with
no timestamps beyond creation and no outputs; the generated UUID is passed in. -/
def Task.create (taskId : String) (actionType : TaskActionType) (now : Nat) : Task :=
  { taskId := taskId
    actionType := actionType
    status := TaskStatus.pending
    createdAt := now }

end ContextKit

namespace ContextKit

/-- Valid message roles, from `Message._validate_role` in
`domain/entities/message.py`. -/
def validRoles : List String := ["user", "assistant", "system"]

/-- Embedding of the `Message` entity (`domain/entities/message.py`).
Metadata is a string-keyed map of string values, modeled as an association
list; the identifier is the string rendering of the UUID. -/
structure Message where
  messageId : String
  role : String
  content : String
  timestamp : Nat
  metadata : List (String × String) := []
deriving DecidableEq, Repr

/-- Embedding of the validating `Message` constructor: `_validate_role` raises
`ValueError` when the role is not in the valid set. -/
def Message.make (messageId role content : String) (timestamp : Nat)
    (metadata : List (String × String)) : Except String Message :=
  if role ∈ validRoles then
    .ok { messageId := messageId, role := role, content := content,
          timestamp := timestamp, metadata := metadata }
  else
    .error ("Invalid role: " ++ role)

/-- Embedding of `Message.create_user_message`: role "user", fresh UUID passed
in, current instant passed in. -/
def Message.createUserMessage (messageId content : String) (now : Nat)
    (metadata : List (String × String)) : Message :=
  { messageId := messageId, role := "user", content := content,
    timestamp := now, metadata := metadata }

/-- Embedding of `Message.create_assistant_message`. -/
def Message.createAssistantMessage (messageId content : String) (now : Nat) : Message :=
  { messageId := messageId, role := "assistant", content := content,
    timestamp := now, metadata := [] }

/-- AI provider kinds from `AIProvider(str, Enum)` in `provider_config.py`.
Because `AIProvider` inherits from `str`, enum members compare equal to their
value strings, so the embedding represents the field by its string value. -/
def AIProvider.azureOpenai : String := "azure-openai"

/-- Ollama provider value string from `AIProvider`. -/
def AIProvider.ollama : String := "ollama"

/-- Embedding of the `ProviderConfig` dataclass fields
(`domain/value_objects/provider_config.py`). The temperature is a rational,
standing for the Python float. -/
structure ProviderConfig where
  provider : String
  endpoint : String
  model : String
  temperature : ℚ
  maxTokens : Option ℚ := none
deriving DecidableEq, Repr

/-- Embedding of Python `str.strip()`: drop whitespace from both ends. -/
def pyStrip (s : String) : String :=
  String.mk (((s.data.dropWhile Char.isWhitespace).reverse.dropWhile
    Char.isWhitespace).reverse)

/-- Embedding of `ProviderConfig.__post_init__` validation
(`provider_config.py` lines 51-75) as a checked constructor: temperature must
lie in [0, 2], max tokens when present must be positive, endpoint and model
must be non-blank. A failure models the raised `ValueError`; success returns
the fields exactly as given (no clamping). -/
def ProviderConfig.make (provider endpoint model : String) (temperature : ℚ)
    (maxTokens : Option ℚ) : Except String ProviderConfig :=
  if ¬(0 ≤ temperature ∧ temperature ≤ 2) then
    .error "Temperature must be between 0.0 and 2.0"
  else if (match maxTokens with | some m => decide (m ≤ 0) | none => false) then
    .error "Max tokens must be positive"
  else if pyStrip endpoint = "" then
    .error "Endpoint cannot be empty"
  else if pyStrip model = "" then
    .error "Model cannot be empty"
  else
    .ok { provider := provider, endpoint := endpoint, model := model,
          temperature := temperature, maxTokens := maxTokens }

end ContextKit

namespace ContextKit

/-- Entry of `Session.get_conversation_history` (`session.py` lines 89-98): a
record with the message role, content and iso-formatted timestamp. -/
structure HistEntry where
  role : String
  content : String
  timestamp : String
deriving DecidableEq, Repr

/-- Embedding of the `Session` aggregate state (`domain/entities/session.py`).
The session identifier is the string rendering of the `SessionId` UUID. -/
structure Session where
  sessionId : String
  userId : String
  providerConfig : ProviderConfig
  systemPrompt : String
  activeTools : List String
  messages : List Message
  tasks : List Task
  createdAt : Nat
  lastActivityAt : Nat
deriving DecidableEq, Repr

/-- Default system prompt from `Session._default_system_prompt`. -/
def Session.defaultSystemPrompt : String :=
  "You are a guard-railed operator for context repository pipelines. " ++
  "Confirm scope, execute only allowlisted commands, and summarize results."

/-- Embedding of the `Session` constructor (`session.py` lines 19-36):
`system_prompt or default` and `active_tools or []` follow Python truthiness
(an absent or empty prompt falls back to the default), message and task lists
start empty, and last activity equals creation time. -/
def Session.init (sessionId userId : String) (providerConfig : ProviderConfig)
    (systemPrompt : Option String) (activeTools : Option (List String))
    (createdAt : Nat) : Session :=
  { sessionId := sessionId
    userId := userId
    providerConfig := providerConfig
    systemPrompt :=
      match systemPrompt with
      | some s => if s = "" then Session.defaultSystemPrompt else s
      | none => Session.defaultSystemPrompt
    activeTools := (activeTools.getD [])
    messages := []
    tasks := []
    createdAt := createdAt
    lastActivityAt := createdAt }

/-- Embedding of `Session.add_message` (`session.py` lines 74-77): appends and
touches the last-activity instant. -/
def Session.addMessage (s : Session) (m : Message) (now : Nat) : Session :=
  { s with messages := s.messages ++ [m], lastActivityAt := now }

/-- Embedding of `Session.add_task` (`session.py` lines 79-82). -/
def Session.addTask (s : Session) (t : Task) (now : Nat) : Session :=
  { s with tasks := s.tasks ++ [t], lastActivityAt := now }

/-- Embedding of `datetime.isoformat` on the abstract instant model: an
injective rendering of the instant as a string of digit characters. -/
def isoFormat (n : Nat) : String := String.mk (List.replicate n '1')

/-- Embedding of `datetime.fromisoformat` on the abstract instant model: the
partial inverse of `isoFormat`, failing (`ValueError`) on any string the
rendering cannot produce. -/
def parseIso (s : String) : Option Nat :=
  if s.data.all (· = '1') then some s.data.length else none

/-- Embedding of `Session.get_conversation_history` (`session.py` lines
89-98): one record per message, in order, with iso-formatted timestamps. -/
def Session.getConversationHistory (s : Session) : List HistEntry :=
  s.messages.map fun m =>
    { role := m.role, content := m.content, timestamp := isoFormat m.timestamp }

/-- State of the in-memory repository (`in_memory_repository.py`): the
`_sessions` dict keyed by `str(session.session_id)`. The association list
keeps the most recent binding first. -/
def MemRepo : Type := List (String × Session)

/-- Embedding of `InMemorySessionRepository.save` (`in_memory_repository.py`
lines 31-47): upserts the session under its id key. -/
def memSave (repo : MemRepo) (s : Session) : MemRepo :=
  (s.sessionId, s) :: (repo.filter fun p => p.1 ≠ s.sessionId)

/-- Embedding of `InMemorySessionRepository.find_by_id`
(`in_memory_repository.py` lines 49-68): dictionary lookup, `none` when
missing. -/
def memFindById (repo : MemRepo) (sessionId : String) : Option Session :=
  (repo.find? fun p => p.1 = sessionId).map Prod.snd

end ContextKit

namespace ContextKit

/-- JSON values, the shape of records stored by the Redis backend
(`infrastructure/persistence/redis_repository.py`). Numbers are rationals,
standing for Python ints and floats. -/
inductive Json where
  | str (s : String)
  | num (q : ℚ)
  | null
  | arr (xs : List Json)
  | obj (fields : List (String × Json))

/-- Python exception classes the Redis repository branches on. Uncaught
dynamic-typing failures (`TypeError`, and attribute errors from using a
wrongly-typed value) are collapsed into `typeError`; both are outside the
`except (json.JSONDecodeError, KeyError, ValueError)` clause of
`find_by_id`. -/
inductive PyError where
  | valueError
  | keyError
  | typeError
  | jsonDecodeError
deriving DecidableEq, Repr

/-- Embedding of Python subscripting `data[k]` on a JSON value: a missing key
in a dict raises `KeyError`; subscripting a non-dict with a string key raises
`TypeError`. -/
def Json.index (j : Json) (k : String) : Except PyError Json :=
  match j with
  | .obj fields =>
    match fields.lookup k with
    | some v => .ok v
    | none => .error .keyError
  | _ => .error .typeError

/-- Embedding of `data.get(k, d)`: default on a missing key; calling `.get` on
a non-dict value fails as an uncaught dynamic-typing error. -/
def Json.getOr (j : Json) (k : String) (d : Json) : Except PyError Json :=
  match j with
  | .obj fields => .ok ((fields.lookup k).getD d)
  | _ => .error .typeError

/-- Extraction of a string field. The source stores several fields without
inspecting them (ids, user id, prompts, contents); the embedding types them as
strings and models a wrongly-typed stored value as an uncaught typing error. -/
def Json.asStr : Json → Except PyError String
  | .str s => .ok s
  | _ => .error .typeError

/-- Embedding of `datetime.fromisoformat(x)`: a non-string argument raises
`TypeError`, an unparsable string raises `ValueError`. -/
def Json.fromIso : Json → Except PyError Nat
  | .str s =>
    match parseIso s with
    | some n => .ok n
    | none => .error .valueError
  | _ => .error .typeError

/-- Numeric field used in an ordered comparison (`ProviderConfig` temperature
and max-tokens validation): a non-number raises `TypeError`. -/
def Json.asNum : Json → Except PyError ℚ
  | .num q => .ok q
  | _ => .error .typeError

/-- Embedding of `Message._validate_role` applied to a stored value: a value
outside the valid-role set (a non-string value always is) raises
`ValueError`. -/
def Json.asRole : Json → Except PyError String
  | .str s => if s ∈ validRoles then .ok s else .error .valueError
  | _ => .error .valueError

/-- Embedding of `TaskStatus(value)`: an unknown or non-string value raises
`ValueError`. -/
def Json.asStatus : Json → Except PyError TaskStatus
  | .str s =>
    match TaskStatus.ofValue s with
    | some st => .ok st
    | none => .error .valueError
  | _ => .error .valueError

/-- Embedding of `TaskActionType(value)`. -/
def Json.asActionType : Json → Except PyError TaskActionType
  | .str s =>
    match TaskActionType.ofValue s with
    | some a => .ok a
    | none => .error .valueError
  | _ => .error .typeError

/-- Metadata fields read back from storage (string keys to string values). -/
def metadataFields : List (String × Json) → Except PyError (List (String × String))
  | [] => .ok []
  | (k, .str v) :: rest => do
    let tail ← metadataFields rest
    .ok ((k, v) :: tail)
  | _ => .error .typeError

/-- Metadata map read back from storage. -/
def Json.asMetadata : Json → Except PyError (List (String × String))
  | .obj fields => metadataFields fields
  | _ => .error .typeError

/-- Elements of a stored string list (`active_tools`). -/
def strListElems : List Json → Except PyError (List String)
  | [] => .ok []
  | .str s :: rest => do
    let tail ← strListElems rest
    .ok (s :: tail)
  | _ => .error .typeError

/-- List of strings read back from storage (`active_tools`). -/
def Json.asStrList : Json → Except PyError (List String)
  | .arr xs => strListElems xs
  | _ => .error .typeError

/-- List of JSON values (the `messages` / `tasks` arrays); iterating a
non-list corrupt value ends in an uncaught typing error. -/
def Json.asArr : Json → Except PyError (List Json)
  | .arr xs => .ok xs
  | _ => .error .typeError

/-- Output record read back from storage. -/
def Json.asOutput (j : Json) : Except PyError Output := do
  let t ← (← j.index "type").asStr
  let c ← (← j.index "content").asStr
  .ok { type_ := t, content := c }

/-- Serialization of an output record, as written inside
`RedisSessionRepository._serialize_session`. -/
def serializeOutput (o : Output) : Json :=
  .obj [("type", .str o.type_), ("content", .str o.content)]

/-- Serialization of one message (`redis_repository.py` lines 72-81). -/
def serializeMessage (m : Message) : Json :=
  .obj [("message_id", .str m.messageId),
        ("role", .str m.role),
        ("content", .str m.content),
        ("timestamp", .str (isoFormat m.timestamp)),
        ("metadata", .obj (m.metadata.map fun p => (p.1, Json.str p.2)))]

/-- Serialization of one task (`redis_repository.py` lines 82-91). The source
writes only id, action type, status, creation time and outputs: the
first-response and completion timestamps are not serialized. -/
def serializeTask (t : Task) : Json :=
  .obj [("task_id", .str t.taskId),
        ("action_type", .str t.actionType.value),
        ("status", .str t.status.value),
        ("created_at", .str (isoFormat t.createdAt)),
        ("outputs", .arr (t.outputs.map serializeOutput))]

/-- Serialization of the provider config (`redis_repository.py` lines 65-71). -/
def serializeProviderConfig (c : ProviderConfig) : Json :=
  .obj [("provider", .str c.provider),
        ("model", .str c.model),
        ("endpoint", .str c.endpoint),
        ("temperature", .num c.temperature),
        ("max_tokens", match c.maxTokens with | some m => .num m | none => .null)]

/-- Embedding of `RedisSessionRepository._serialize_session`
(`redis_repository.py` lines 48-92). -/
def serializeSession (s : Session) : Json :=
  .obj [("session_id", .str s.sessionId),
        ("user_id", .str s.userId),
        ("created_at", .str (isoFormat s.createdAt)),
        ("last_activity_at", .str (isoFormat s.lastActivityAt)),
        ("system_prompt", .str s.systemPrompt),
        ("active_tools", .arr (s.activeTools.map Json.str)),
        ("provider_config", serializeProviderConfig s.providerConfig),
        ("messages", .arr (s.messages.map serializeMessage)),
        ("tasks", .arr (s.tasks.map serializeTask))]

/-- Max-tokens field read back from storage: `null` is `None`, a number is
kept, anything else fails in the positivity comparison with `TypeError`. -/
def Json.asMaxTokens : Json → Except PyError (Option ℚ)
  | .null => .ok none
  | .num q => .ok (some q)
  | _ => .error .typeError

/-- Embedding of the `ProviderConfig(...)` reconstruction inside
`_deserialize_session` (`redis_repository.py` lines 105-112): fields are read
in the order they appear in the call, then `__post_init__` validation runs,
raising `ValueError` on an invalid combination. -/
def deserializeProviderConfig (j : Json) : Except PyError ProviderConfig := do
  let provider ← (← j.index "provider").asStr
  let model ← (← j.index "model").asStr
  let endpoint ← (← j.index "endpoint").asStr
  let temperature ← (← j.index "temperature").asNum
  let maxTokens ← (← j.index "max_tokens").asMaxTokens
  match ProviderConfig.make provider endpoint model temperature maxTokens with
  | .ok c => .ok c
  | .error _ => .error .valueError

/-- Embedding of the `Message(...)` reconstruction inside
`_deserialize_session` (`redis_repository.py` lines 126-134): constructor
arguments are evaluated in order (`fromisoformat` runs during argument
evaluation, `metadata` falls back to an empty map), then the constructor
validates the role. -/
def deserializeMessage (j : Json) : Except PyError Message := do
  let mid ← (← j.index "message_id").asStr
  let roleJ ← j.index "role"
  let content ← (← j.index "content").asStr
  let ts ← (← j.index "timestamp").fromIso
  let md ← (← j.getOr "metadata" (.obj [])).asMetadata
  let role ← roleJ.asRole
  .ok { messageId := mid, role := role, content := content,
        timestamp := ts, metadata := md }

/-- Output records of a task read back from storage, in order; a failure on
any element aborts the whole deserialization, as the Python loop would by
raising. -/
def deserializeOutputs : List Json → Except PyError (List Output)
  | [] => .ok []
  | j :: rest => do
    let o ← j.asOutput
    let tail ← deserializeOutputs rest
    .ok (o :: tail)

/-- Embedding of the `Task(...)` reconstruction inside `_deserialize_session`
(`redis_repository.py` lines 137-145). The constructor is called without
`first_response_at` / `completed_at`, so both take their `None` defaults. -/
def deserializeTask (j : Json) : Except PyError Task := do
  let tid ← (← j.index "task_id").asStr
  let act ← (← j.index "action_type").asActionType
  let st ← (← j.index "status").asStatus
  let ca ← (← j.index "created_at").fromIso
  let outs ← (← j.getOr "outputs" (.arr [])).asArr
  let outputs ← deserializeOutputs outs
  .ok { taskId := tid, actionType := act, status := st, createdAt := ca,
        firstResponseAt := none, completedAt := none, outputs := outputs }

/-- Embedding of the message-recreation loop of `_deserialize_session`
(`redis_repository.py` lines 126-134), element by element in order. -/
def deserializeMessages : List Json → Except PyError (List Message)
  | [] => .ok []
  | j :: rest => do
    let m ← deserializeMessage j
    let tail ← deserializeMessages rest
    .ok (m :: tail)

/-- Embedding of the task-recreation loop of `_deserialize_session`
(`redis_repository.py` lines 137-145). -/
def deserializeTasks : List Json → Except PyError (List Task)
  | [] => .ok []
  | j :: rest => do
    let t ← deserializeTask j
    let tail ← deserializeTasks rest
    .ok (t :: tail)

/-- Embedding of `RedisSessionRepository._deserialize_session`
(`redis_repository.py` lines 94-147): provider config first, then the
`Session(...)` constructor arguments in call order (the constructor applies
the `system_prompt or default` fallback), then the direct overwrite of the
last-activity field, then the message and task arrays in order. -/
def deserializeSession (data : Json) : Except PyError Session := do
  let configData ← data.index "provider_config"
  let providerConfig ← deserializeProviderConfig configData
  let sid ← (← data.index "session_id").asStr
  let uid ← (← data.index "user_id").asStr
  let ca ← (← data.index "created_at").fromIso
  let sp ← (← data.index "system_prompt").asStr
  let tools ← (← data.index "active_tools").asStrList
  let la ← (← data.index "last_activity_at").fromIso
  let msgsJ ← (← data.index "messages").asArr
  let messages ← deserializeMessages msgsJ
  let tasksJ ← (← data.index "tasks").asArr
  let tasks ← deserializeTasks tasksJ
  .ok { sessionId := sid
        userId := uid
        providerConfig := providerConfig
        systemPrompt := if sp = "" then Session.defaultSystemPrompt else sp
        activeTools := tools
        messages := messages
        tasks := tasks
        createdAt := ca
        lastActivityAt := la }

/-- Value stored under a Redis key: a record that parses as JSON, or a raw
string `json.loads` rejects. -/
inductive StoredVal where
  | json (j : Json)
  | malformed (raw : String)

/-- State of the Redis store visible to the repository: key to stored value. -/
def RedisStore : Type := List (String × StoredVal)

/-- Embedding of `RedisSessionRepository._session_key`. -/
def redisKey (sessionId : String) : String := "session:" ++ sessionId

/-- Embedding of `RedisSessionRepository.save` (`redis_repository.py` lines
149-169): serialize and overwrite under the session key. -/
def redisSave (store : RedisStore) (s : Session) : RedisStore :=
  (redisKey s.sessionId, StoredVal.json (serializeSession s)) ::
    (store.filter fun p => p.1 ≠ redisKey s.sessionId)

/-- Exception classes caught by `RedisSessionRepository.find_by_id`
(`except (json.JSONDecodeError, KeyError, ValueError)`, line 193). -/
def caughtByFindById : PyError → Bool
  | .jsonDecodeError => true
  | .keyError => true
  | .valueError => true
  | .typeError => false

/-- Embedding of `RedisSessionRepository.find_by_id` (`redis_repository.py`
lines 171-199): a missing key is `none`; a record `json.loads` rejects raises
`JSONDecodeError`, which is caught and becomes `none`; a deserialization
failure in one of the caught classes becomes `none`; any other failure
propagates. -/
def redisFindById (store : RedisStore) (sessionId : String) :
    Except PyError (Option Session) :=
  match (store.find? fun p => p.1 = redisKey sessionId).map Prod.snd with
  | none => .ok none
  | some (.malformed _) => .ok none
  | some (.json j) =>
    match deserializeSession j with
    | .ok s => .ok (some s)
    | .error e => if caughtByFindById e then .ok none else .error e

end ContextKit

namespace ContextKit

/-- Tool-call request carried by a model response, as consumed in
`services/langchain_agent.py` (name, argument map, call id). -/
structure ToolCall where
  name : String
  args : List (String × String)
  callId : String
deriving DecidableEq, Repr

/-- LangChain message kinds built by the two message-builders
(`SystemMessage` / `HumanMessage` / `AIMessage` with tool calls /
`ToolMessage`). -/
inductive LCMessage where
  | system (content : String)
  | human (content : String)
  | ai (content : String) (toolCalls : List ToolCall)
  | tool (content : String) (callId : String) (name : String)
deriving DecidableEq, Repr

/-- Model response, the shape `LangChainAgent.invoke` inspects: text content
plus the possibly empty tool-call list (an absent `tool_calls` attribute
behaves like the empty list). -/
structure LCResponse where
  content : String
  toolCalls : List ToolCall
deriving DecidableEq, Repr

/-- Model provider as seen by the agent loop: one response per message
sequence. -/
def Provider : Type := List LCMessage → LCResponse

/-- Invocable tool capability: structured arguments to a result, or a raised
error. -/
def ToolFn : Type := List (String × String) → Except String String

/-- Tool registry: name-keyed lookup of capabilities
(`services/tools/registry.py`). -/
def ToolRegistry : Type := List (String × ToolFn)

/-- Conversation message dict kept by `AssistantSession.add_message`
(`assistant_session_manager.py` lines 52-61). -/
structure ChatDict where
  role : String
  content : String
  timestamp : String
  metadata : List (String × String)
deriving DecidableEq, Repr

/-- The user-message dict appended by `send_message` / `stream_message`
before invoking the agent. -/
def userChatDict (content mode : String) (now : Nat) : ChatDict :=
  { role := "user", content := content, timestamp := isoFormat now,
    metadata := [("mode", mode)] }

/-- Embedding of `LangChainAgent._build_messages` (`langchain_agent.py` lines
128-145): system prompt first, then history entries mapped by role (user to
human, assistant to AI, all other roles silently dropped), then the current
user message. -/
def agentBuildMessages (systemPrompt message : String)
    (chatHistory : List ChatDict) : List LCMessage :=
  LCMessage.system systemPrompt ::
    (chatHistory.filterMap fun m =>
      if m.role = "user" then some (LCMessage.human m.content)
      else if m.role = "assistant" then some (LCMessage.ai m.content [])
      else none)
    ++ [LCMessage.human message]

/-- Fixed fallback returned when the iteration bound is reached
(`langchain_agent.py` line 229). -/
def maxIterationsMessage : String :=
  "I apologize, but I reached the maximum number of tool calls without completing the task."

/-- Fallback for an empty final response (`langchain_agent.py` line 178). -/
def emptyResponseMessage : String := "I couldn't process that request."

/-- Embedding of the per-iteration tool execution (`langchain_agent.py` lines
186-222): each requested call is looked up by name; a found tool contributes a
tool-result message with its result or its error text, an unknown name is
skipped. -/
def executeToolCalls (registry : ToolRegistry) (calls : List ToolCall) :
    List LCMessage :=
  calls.flatMap fun tc =>
    match registry.lookup tc.name with
    | some f =>
      match f tc.args with
      | .ok r => [LCMessage.tool r tc.callId tc.name]
      | .error e => [LCMessage.tool ("Error executing tool: " ++ e) tc.callId tc.name]
    | none => []

/-- Embedding of the bounded loop body of `LangChainAgent.invoke`
(`langchain_agent.py` lines 161-229), with the remaining iteration count as
fuel. Returns the final text together with the number of provider
invocations performed. Exhausted fuel yields the fixed fallback. -/
def invokeLoop (provider : Provider) (registry : ToolRegistry) :
    Nat → List LCMessage → String × Nat
  | 0, _ => (maxIterationsMessage, 0)
  | fuel + 1, messages =>
    let response := provider messages
    if response.toolCalls = [] then
      (if response.content = "" then emptyResponseMessage else response.content, 1)
    else
      let next := messages
        ++ [LCMessage.ai response.content response.toolCalls]
        ++ executeToolCalls registry response.toolCalls
      let rest := invokeLoop provider registry fuel next
      (rest.1, rest.2 + 1)

/-- Embedding of `LangChainAgent.invoke`: build the message sequence, then run
the loop with the fixed bound of 5 iterations (`max_iterations = 5`). -/
def LangChainAgent.invoke (provider : Provider) (registry : ToolRegistry)
    (systemPrompt message : String) (chatHistory : List ChatDict) : String × Nat :=
  invokeLoop provider registry 5 (agentBuildMessages systemPrompt message chatHistory)

/-- Embedding of the history selection in `AssistantSessionManager.send_message`
(`assistant_session_manager.py` line 156): all session messages except the
last (the just-appended user message). -/
def managerChatHistory (messagesAfterAdd : List ChatDict) : List ChatDict :=
  messagesAfterAdd.dropLast

/-- The message sequence `AssistantSessionManager.send_message` hands the
model provider for a session whose conversation held `priorMessages` before
the call: the user dict is appended, the history excludes it, and the agent
builds the provider input (`assistant_session_manager.py` lines 137-163 with
`langchain_agent.py` lines 128-145). -/
def managerProviderInput (systemPrompt content mode : String)
    (priorMessages : List ChatDict) (now : Nat) : List LCMessage :=
  agentBuildMessages systemPrompt content
    (managerChatHistory (priorMessages ++ [userChatDict content mode now]))

/-- A value handed to `LangChainAIAdapter._build_messages` as a history
entry. The adapter's declared interface takes `Message` entities, whose
`role` / `content` attribute reads succeed; `SendMessageUseCase.execute`
actually hands it the plain dict records of `get_conversation_history`, on
which an attribute read raises `AttributeError` — collapsed into `typeError`
under the declared convention for uncaught dynamic-typing failures. -/
inductive HistVal where
  | entity (m : Message)
  | record (h : HistEntry)

/-- Embedding of the `msg.role` attribute read at `langchain_adapter.py`
line 58: succeeds on a `Message` entity, raises on a dict record. -/
def HistVal.roleAttr : HistVal → Except PyError String
  | .entity m => .ok m.role
  | .record _ => .error .typeError

/-- Embedding of the `msg.content` attribute read at `langchain_adapter.py`
lines 62 and 65. -/
def HistVal.contentAttr : HistVal → Except PyError String
  | .entity m => .ok m.content
  | .record _ => .error .typeError

/-- Embedding of the history loop of `LangChainAIAdapter._build_messages`
(`langchain_adapter.py` lines 56-65): for each entry the role attribute is
read first (for a domain `Message` the role is a plain string, so the
`hasattr(..., "value")` probes leave it unchanged), then user entries become
human messages, assistant entries become system messages, and any other role
is skipped. A failed attribute read aborts the whole build by raising. -/
def adapterHistoryMessages : List HistVal → Except PyError (List LCMessage)
  | [] => .ok []
  | msg :: rest => do
    let role ← msg.roleAttr
    let entry ←
      if role = "user" then do
        let c ← msg.contentAttr
        pure [LCMessage.human c]
      else if role = "assistant" then do
        let c ← msg.contentAttr
        pure [LCMessage.system c]
      else
        pure ([] : List LCMessage)
    let tail ← adapterHistoryMessages rest
    .ok (entry ++ tail)

/-- Embedding of `LangChainAIAdapter._build_messages` (`langchain_adapter.py`
lines 33-70): optional system prompt (Python truthiness: an empty prompt is
dropped), then the history entries mapped by role, then the current prompt —
or the raised error of the first failing history read. -/
def adapterBuildMessages (prompt : String) (conversationHistory : List HistVal)
    (systemPrompt : Option String) : Except PyError (List LCMessage) := do
  let hist ← adapterHistoryMessages conversationHistory
  .ok ((match systemPrompt with
    | some sp => if sp = "" then [] else [LCMessage.system sp]
    | none => [])
    ++ hist ++ [LCMessage.human prompt])

/-- Tool-context suffix appended to the system prompt by
`LangChainAIAdapter.invoke` (`langchain_adapter.py` line 110). Written with
escaped newlines. -/
def adapterToolContext (tools : List String) : String :=
  "\n\nAvailable tools: " ++ String.intercalate ", " tools

/-- Embedding of the message-preparation part of `LangChainAIAdapter.invoke`
(`langchain_adapter.py` lines 101-117): build the messages — propagating a
raised build error — then, when tools are available, rewrite or prepend the
system message with the tool context. -/
def adapterInvokeInput (prompt : String) (conversationHistory : List HistVal)
    (systemPrompt : Option String) (availableTools : List String) :
    Except PyError (List LCMessage) := do
  let messages ← adapterBuildMessages prompt conversationHistory systemPrompt
  if availableTools = [] then .ok messages
  else
    match systemPrompt with
    | some sp =>
      if sp = "" then
        .ok (LCMessage.system ("You are a helpful assistant." ++ adapterToolContext availableTools)
          :: messages)
      else
        .ok (messages.set 0 (LCMessage.system (sp ++ adapterToolContext availableTools)))
    | none =>
      .ok (LCMessage.system ("You are a helpful assistant." ++ adapterToolContext availableTools)
        :: messages)

/-- The provider input the application-layer send path attempts to build:
`SendMessageUseCase.execute` appends the user message to the session and
passes `session.get_conversation_history()` — the full dict-record history
including the just-added user message — together with the prompt to the AI
port (`send_message.py` lines 57-79), and `LangChainAIAdapter` consumes the
records through attribute reads (`langchain_adapter.py` lines 33-70,
101-117), so the result is the built message sequence or the raised error. -/
def useCaseProviderInput (s : Session) (content userMsgId mode : String)
    (now : Nat) : Except PyError (List LCMessage) :=
  let s1 := s.addMessage (Message.createUserMessage userMsgId content now [("mode", mode)]) now
  adapterInvokeInput content (s1.getConversationHistory.map HistVal.record)
    (some s.systemPrompt) s.activeTools

end ContextKit

namespace ContextKit

/-- Streaming event record emitted by `AssistantSessionManager.stream_message`
(`assistant_session_manager.py` lines 197-274): every event carries a type,
the task id and a timestamp; token events add the token text and its index;
the failure event adds the error text. -/
structure StreamEvent where
  type_ : String
  taskId : String
  timestamp : String
  token : Option String := none
  index : Option Nat := none
  error : Option String := none
deriving DecidableEq, Repr

/-- Observable behavior of `session.agent.stream(...)` as consumed by
`stream_message`: the agent yields some tokens and then either finishes
normally or raises with an error after them. -/
inductive StreamOutcome where
  | success (tokens : List String)
  | failure (tokens : List String) (error : String)

/-- Token events for the given token list, with indices counting up from
`start` (the `token_index` counter of `stream_message`). -/
def tokenEventsFrom (taskId : String) (now : Nat) (start : Nat) :
    List String → List StreamEvent
  | [] => []
  | t :: ts =>
    { type_ := "token", taskId := taskId, timestamp := isoFormat now,
      token := some t, index := some start } ::
      tokenEventsFrom taskId now (start + 1) ts

/-- Embedding of the event sequence emitted by
`AssistantSessionManager.stream_message` for an existing session
(`assistant_session_manager.py` lines 197-274): the `task.started` event is
yielded first; inside the guarded block one token event per agent fragment is
yielded with a counter starting at 0; on normal completion a single
`task.completed` event ends the stream, and when the agent raises after some
fragments a single `task.failed` event carrying the error text ends it. -/
def streamMessageEvents (taskId : String) (now : Nat) (outcome : StreamOutcome) :
    List StreamEvent :=
  let started : StreamEvent :=
    { type_ := "task.started", taskId := taskId, timestamp := isoFormat now }
  match outcome with
  | .success toks =>
    started :: tokenEventsFrom taskId now 0 toks ++
      [{ type_ := "task.completed", taskId := taskId, timestamp := isoFormat now }]
  | .failure toks e =>
    started :: tokenEventsFrom taskId now 0 toks ++
      [{ type_ := "task.failed", taskId := taskId, timestamp := isoFormat now,
         error := some e }]

/-- Replacement of the task object the session aliases: the Python code
mutates the just-appended `Task` in place, which the session's internal list
observes; in the value embedding the last list entry is replaced. -/
def Session.replaceLastTask (s : Session) (t : Task) : Session :=
  { s with tasks := s.tasks.dropLast ++ [t] }

/-- Embedding of `SendMessageUseCase.execute` (`send_message.py` lines
42-108) over the in-memory repository. The AI port is a function from the
prompt and the conversation history to a response or a raised error; the
generated UUIDs and the current instant are passed in. A missing session
raises before any mutation. Otherwise the user message and a fresh pending
task are appended, the task is started, and the AI port is consulted: on
success the assistant message is appended and the task succeeds with a text
output; on a raised error the task is failed with the error text and the
error is re-raised — in every case the `finally` block saves the session
before the call returns. -/
def executeSend (repo : MemRepo) (sessionIdStr content mode : String)
    (ai : String → List HistEntry → Except String String)
    (userMsgId assistantMsgId taskId : String) (now : Nat) :
    MemRepo × Except String Task :=
  match memFindById repo sessionIdStr with
  | none => (repo, .error ("Session not found: " ++ sessionIdStr))
  | some session =>
    let userMessage := Message.createUserMessage userMsgId content now [("mode", mode)]
    let s1 := session.addMessage userMessage now
    let task := Task.create taskId TaskActionType.prompt now
    let s2 := s1.addTask task now
    match task.start now with
    | .error e =>
      let s3 := s2.replaceLastTask (task.fail now e)
      (memSave repo s3, .error e)
    | .ok started =>
      let s2' := s2.replaceLastTask started
      match ai content s2'.getConversationHistory with
      | .ok response =>
        let assistantMessage := Message.createAssistantMessage assistantMsgId response now
        let s3 := s2'.addMessage assistantMessage now
        let done := started.succeed now (some { type_ := "text", content := response })
        let s4 := s3.replaceLastTask done
        (memSave repo s4, .ok done)
      | .error e =>
        let failed := started.fail now e
        let s3 := s2'.replaceLastTask failed
        (memSave repo s3, .error e)

/-- Heap of Python list objects of one element type: cell index is the
object identity, the cell holds the list contents. -/
structure PyListHeap (α : Type) where
  cells : List (List α)

/-- Contents of the list object at a reference. -/
def PyListHeap.read (h : PyListHeap α) (r : Nat) : List α :=
  (h.cells[r]?).getD []

/-- In-place mutation of the list object at a reference (covers append,
remove, reorder: any replacement of the contents). -/
def PyListHeap.write (h : PyListHeap α) (r : Nat) (v : List α) : PyListHeap α :=
  ⟨h.cells.set r v⟩

/-- Embedding of Python `list.copy()`: allocate a fresh list object holding
the same elements and return its reference. -/
def PyListHeap.copy (h : PyListHeap α) (r : Nat) : PyListHeap α × Nat :=
  (⟨h.cells ++ [h.read r]⟩, h.cells.length)

/-- A `Session` object as a holder of its internal list objects
(`_messages`, `_tasks`, `_active_tools`), identified by heap references. -/
structure SessionObj where
  messagesRef : Nat
  tasksRef : Nat
  activeToolsRef : Nat

/-- A `Task` object as a holder of its internal `_outputs` list object. -/
structure TaskObj where
  outputsRef : Nat

/-- Embedding of the `Session.messages` property (`session.py` lines 58-60):
returns `self._messages.copy()`. -/
def SessionObj.messagesProp (s : SessionObj) (h : PyListHeap Message) :
    PyListHeap Message × Nat :=
  h.copy s.messagesRef

/-- Embedding of the `Session.tasks` property (`session.py` lines 62-64). -/
def SessionObj.tasksProp (s : SessionObj) (h : PyListHeap Task) :
    PyListHeap Task × Nat :=
  h.copy s.tasksRef

/-- Embedding of the `Session.active_tools` property (`session.py` lines
54-56). -/
def SessionObj.activeToolsProp (s : SessionObj) (h : PyListHeap String) :
    PyListHeap String × Nat :=
  h.copy s.activeToolsRef

/-- Embedding of the `Task.outputs` property (`task.py` lines 51-53):
returns `self._outputs.copy()`. -/
def TaskObj.outputsProp (t : TaskObj) (h : PyListHeap Output) :
    PyListHeap Output × Nat :=
  h.copy t.outputsRef

end ContextKit

namespace ContextKit

/-- Stub provider that always requests one tool call. -/
def alwaysToolCallProvider : Provider :=
  fun _ => { content := "", toolCalls := [{ name := "t", args := [], callId := "c" }] }

/-- A task with its first-response and completion instants cleared: what the
Redis serializer forgets about a task. -/
def scrubTask (t : Task) : Task :=
  { t with firstResponseAt := none, completedAt := none }

/-- A session whose tasks lost their first-response and completion instants. -/
def scrubSession (s : Session) : Session :=
  { s with tasks := s.tasks.map scrubTask }

/-- Validity of the `ProviderConfig` invariants checked by `__post_init__`;
sessions built through the validated constructor satisfy it. -/
def ProviderConfig.valid (c : ProviderConfig) : Bool :=
  decide (0 ≤ c.temperature ∧ c.temperature ≤ 2)
  && (match c.maxTokens with | some m => decide (0 < m) | none => true)
  && decide (¬ pyStrip c.endpoint = "")
  && decide (¬ pyStrip c.model = "")

/-- Well-formedness a session has by construction through the domain
constructors: valid provider config, validated message roles, and the
non-empty system prompt the `or`-default guarantees. -/
def Session.wf (s : Session) : Bool :=
  s.providerConfig.valid
  && s.messages.all (fun m => decide (m.role ∈ validRoles))
  && decide (¬ s.systemPrompt = "")

/-- Concrete provider config for witnesses and counterexamples. -/
def sampleConfig : ProviderConfig :=
  { provider := "ollama", endpoint := "http://localhost:11434", model := "llama2",
    temperature := 1, maxTokens := none }

/-- Concrete session holding one message and one started task (so its task
carries a first-response instant). -/
def sampleSession : Session :=
  { sessionId := "s1"
    userId := "u1"
    providerConfig := sampleConfig
    systemPrompt := "sp"
    activeTools := []
    messages := [{ messageId := "m1", role := "user", content := "hi",
                   timestamp := 1, metadata := [] }]
    tasks := [{ taskId := "t1", actionType := .prompt, status := .streaming,
                createdAt := 1, firstResponseAt := some 5, completedAt := none,
                outputs := [] }]
    createdAt := 0
    lastActivityAt := 1 }

/-- Fresh session used by the send-message witness. -/
def c8Session : Session :=
  Session.init "s" "u" sampleConfig none none 0

/-- Repository holding only the witness session. -/
def c8Repo : MemRepo := memSave [] c8Session

/-- AI port stub returning a fixed response. -/
def c8Ai : String → List HistEntry → Except String String :=
  fun _ _ => Except.ok "Stub response"

end ContextKit

namespace ContextKit

/-- C1 (counterexample): the claim that no terminal-state Task changes status
under start/succeed/fail is false on the code: `succeed()` has no terminal
guard, so calling it on a task whose status is `failed` (a terminal state)
moves the status to `succeeded`. -/
theorem task_terminal_escape_counterexample :
    TaskStatus.isTerminal (Task.mk "t1" .prompt .failed 0 none none []).status = true
    ∧ (Task.succeed (Task.mk "t1" .prompt .failed 0 none none []) 1 none).status
        ≠ (Task.mk "t1" .prompt .failed 0 none none []).status := by
  decide

/-- C1 (amended): only `start()` guards its source state — on a terminal task
it signals the invalid-transition error and leaves the task unchanged (the
raise happens before any mutation); `succeed()` and `fail()` carry no
terminal-state guard and set the status to `succeeded` resp. `failed` even
from a terminal state. -/
theorem task_terminal_transitions (t : Task) (now : Nat)
    (h : t.status.isTerminal = true) :
    (∃ msg, t.start now = Except.error msg)
    ∧ (∀ output, (t.succeed now output).status = TaskStatus.succeeded)
    ∧ (∀ e, (t.fail now e).status = TaskStatus.failed) := by
  refine ⟨⟨"Cannot start task in status " ++ t.status.value, ?_⟩,
    fun _ => rfl, fun _ => rfl⟩
  have hne : t.status ≠ TaskStatus.pending := by
    intro hp
    rw [hp] at h
    simp [TaskStatus.isTerminal] at h
  simp [Task.start, hne]

/-- Witness for `task_terminal_transitions` at a concrete failed task. -/
theorem task_terminal_transitions_witness :
    (∃ msg, Task.start (Task.mk "t1" .prompt .failed 0 none none []) 1 = Except.error msg)
    ∧ (∀ output,
        (Task.succeed (Task.mk "t1" .prompt .failed 0 none none []) 1 output).status
          = TaskStatus.succeeded)
    ∧ (∀ e,
        (Task.fail (Task.mk "t1" .prompt .failed 0 none none []) 1 e).status
          = TaskStatus.failed) :=
  task_terminal_transitions (Task.mk "t1" .prompt .failed 0 none none []) 1 (by decide)

/-- C6: `Task.start()` on a pending task moves it to `streaming` and records
the first-response instant, leaving every other field unchanged; on a task in
any other status it signals the invalid-transition `ValueError` (never a
silent no-op), and since the raise precedes any assignment the task is left
unchanged. -/
theorem task_start_valid_only_from_pending (t : Task) (now : Nat) :
    (t.status = TaskStatus.pending →
      t.start now =
        Except.ok { t with status := TaskStatus.streaming, firstResponseAt := some now })
    ∧ (t.status ≠ TaskStatus.pending →
      t.start now = Except.error ("Cannot start task in status " ++ t.status.value)) := by
  constructor
  · intro h
    simp [Task.start, h]
  · intro h
    simp [Task.start, h]

/-- Witness for `task_start_valid_only_from_pending`: a freshly created task
starts, a streaming task refuses to start. -/
theorem task_start_valid_only_from_pending_witness :
    (Task.create "t6" TaskActionType.prompt 0).start 3 =
      Except.ok { Task.create "t6" TaskActionType.prompt 0 with
        status := TaskStatus.streaming, firstResponseAt := some 3 }
    ∧ Task.start (Task.mk "t6" .prompt .streaming 0 (some 1) none []) 3 =
        Except.error ("Cannot start task in status " ++ TaskStatus.streaming.value) :=
  ⟨(task_start_valid_only_from_pending (Task.create "t6" TaskActionType.prompt 0) 3).1
      (by decide),
   (task_start_valid_only_from_pending (Task.mk "t6" .prompt .streaming 0 (some 1) none []) 3).2
      (by decide)⟩

/-- C9: with the other fields valid, `ProviderConfig` construction succeeds
for every temperature in the closed interval [0, 2] — returning the
temperature exactly as given, never clamped — and fails with the temperature
`ValueError` for every temperature outside the interval. -/
theorem provider_config_temperature_range (provider endpoint model : String)
    (temperature : ℚ) (he : pyStrip endpoint ≠ "") (hm : pyStrip model ≠ "") :
    (0 ≤ temperature ∧ temperature ≤ 2 →
      ProviderConfig.make provider endpoint model temperature none =
        Except.ok ⟨provider, endpoint, model, temperature, none⟩)
    ∧ (¬(0 ≤ temperature ∧ temperature ≤ 2) →
      ProviderConfig.make provider endpoint model temperature none =
        Except.error "Temperature must be between 0.0 and 2.0") := by
  constructor
  · intro h
    simp [ProviderConfig.make, h, he, hm]
  · intro h
    simp [ProviderConfig.make, h]

/-- Witness for `provider_config_temperature_range` at temperature 1 (inside
the interval) and temperature 3 (outside). -/
theorem provider_config_temperature_range_witness :
    (ProviderConfig.make "ollama" "http://localhost:11434" "llama2" 1 none =
      Except.ok ⟨"ollama", "http://localhost:11434", "llama2", 1, none⟩)
    ∧ (ProviderConfig.make "ollama" "http://localhost:11434" "llama2" 3 none =
      Except.error "Temperature must be between 0.0 and 2.0") :=
  ⟨(provider_config_temperature_range "ollama" "http://localhost:11434" "llama2" 1
      (by decide) (by decide)).1 (by norm_num),
   (provider_config_temperature_range "ollama" "http://localhost:11434" "llama2" 3
      (by decide) (by decide)).2 (by norm_num)⟩

end ContextKit

namespace ContextKit

/-- C4: against a provider whose every response carries tool-call requests,
the agent loop performs exactly 5 provider invocations — the fixed
`max_iterations` bound — and returns the fixed fallback string instead of
raising or diverging (the loop is a bounded `for`, so termination is
structural). -/
theorem agent_loop_bound (provider : Provider) (registry : ToolRegistry)
    (systemPrompt message : String) (chatHistory : List ChatDict)
    (h : ∀ msgs, (provider msgs).toolCalls ≠ []) :
    LangChainAgent.invoke provider registry systemPrompt message chatHistory =
      (maxIterationsMessage, 5) := by
  have key : ∀ fuel msgs,
      invokeLoop provider registry fuel msgs = (maxIterationsMessage, fuel) := by
    intro fuel
    induction fuel with
    | zero => intro msgs; rfl
    | succ n ih =>
      intro msgs
      simp [invokeLoop, h msgs, ih]
  exact key 5 _

/-- Witness for `agent_loop_bound` against the always-tool-calling stub. -/
theorem agent_loop_bound_witness :
    LangChainAgent.invoke alwaysToolCallProvider [] "sys" "hello" [] =
      (maxIterationsMessage, 5) :=
  agent_loop_bound alwaysToolCallProvider [] "sys" "hello" []
    (fun _ => by simp [alwaysToolCallProvider])

/-- Token events carry the type "token" and consecutive indices from the
starting counter value. -/
theorem tokenEventsFrom_get (tid : String) (now : Nat) (toks : List String) :
    ∀ k i (hi : i < (tokenEventsFrom tid now k toks).length),
      ((tokenEventsFrom tid now k toks).get ⟨i, hi⟩).type_ = "token" ∧
      ((tokenEventsFrom tid now k toks).get ⟨i, hi⟩).index = some (k + i) := by
  induction toks with
  | nil =>
    intro k i hi
    simp [tokenEventsFrom] at hi
  | cons t ts ih =>
    intro k i hi
    cases i with
    | zero => simp [tokenEventsFrom]
    | succ j =>
      have hj : j < (tokenEventsFrom tid now (k + 1) ts).length := by
        have := hi
        simp [tokenEventsFrom] at this
        omega
      have := ih (k + 1) j hj
      constructor
      · simpa [tokenEventsFrom] using this.1
      · have h2 := this.2
        rw [show k + (j + 1) = (k + 1) + j by omega]
        simpa [tokenEventsFrom] using h2

/-- C5: for every `stream_message` run on an existing session, the emitted
event sequence is exactly one `task.started` event, then one token event per
streamed fragment with index fields counting 0, 1, 2, …, then exactly one
terminal event — `task.completed` on success, `task.failed` carrying the
error text on failure — and nothing after the terminal event (it is the last
element of the sequence). -/
theorem stream_message_event_order (taskId : String) (now : Nat)
    (outcome : StreamOutcome) :
    ∃ body last,
      streamMessageEvents taskId now outcome =
        ({ type_ := "task.started", taskId := taskId,
           timestamp := isoFormat now } : StreamEvent) :: body ++ [last]
      ∧ (∀ i (hi : i < body.length),
          (body.get ⟨i, hi⟩).type_ = "token" ∧ (body.get ⟨i, hi⟩).index = some i)
      ∧ ((last.type_ = "task.completed" ∧ last.error = none)
          ∨ (last.type_ = "task.failed" ∧ ∃ e, last.error = some e)) := by
  cases outcome with
  | success toks =>
    refine ⟨tokenEventsFrom taskId now 0 toks,
      { type_ := "task.completed", taskId := taskId, timestamp := isoFormat now },
      rfl, ?_, Or.inl ⟨rfl, rfl⟩⟩
    intro i hi
    have := tokenEventsFrom_get taskId now toks 0 i hi
    simpa using this
  | failure toks e =>
    refine ⟨tokenEventsFrom taskId now 0 toks,
      { type_ := "task.failed", taskId := taskId, timestamp := isoFormat now,
        error := some e },
      rfl, ?_, Or.inr ⟨rfl, e, rfl⟩⟩
    intro i hi
    have := tokenEventsFrom_get taskId now toks 0 i hi
    simpa using this

/-- Freshly copied list objects are distinct from the source object, and
writing through the copy leaves the source contents unchanged. -/
theorem pyCopy_fresh {α : Type} (h : PyListHeap α) (r : Nat)
    (hr : r < h.cells.length) :
    (h.copy r).2 ≠ r
    ∧ (∀ v, ((h.copy r).1.write (h.copy r).2 v).read r = h.read r) := by
  constructor
  · simp only [PyListHeap.copy]
    omega
  · intro v
    have hne : h.cells.length ≠ r := by omega
    simp only [PyListHeap.copy, PyListHeap.write, PyListHeap.read]
    rw [List.getElem?_set_ne hne, List.getElem?_append_left hr]

/-- C10: the `Session.messages`, `Session.tasks`, `Session.active_tools` and
`Task.outputs` accessors each return a fresh copy of the internal list
object; mutating the returned list object in any way leaves the aggregate's
internal list unchanged, so the aggregate can only be mutated through its own
mutation methods. -/
theorem accessors_return_defensive_copies
    (hm : PyListHeap Message) (ht : PyListHeap Task) (ha : PyListHeap String)
    (ho : PyListHeap Output) (s : SessionObj) (t : TaskObj)
    (hmv : s.messagesRef < hm.cells.length) (htv : s.tasksRef < ht.cells.length)
    (hav : s.activeToolsRef < ha.cells.length) (hov : t.outputsRef < ho.cells.length) :
    ((s.messagesProp hm).2 ≠ s.messagesRef
      ∧ ∀ v, ((s.messagesProp hm).1.write (s.messagesProp hm).2 v).read s.messagesRef
          = hm.read s.messagesRef)
    ∧ ((s.tasksProp ht).2 ≠ s.tasksRef
      ∧ ∀ v, ((s.tasksProp ht).1.write (s.tasksProp ht).2 v).read s.tasksRef
          = ht.read s.tasksRef)
    ∧ ((s.activeToolsProp ha).2 ≠ s.activeToolsRef
      ∧ ∀ v, ((s.activeToolsProp ha).1.write (s.activeToolsProp ha).2 v).read s.activeToolsRef
          = ha.read s.activeToolsRef)
    ∧ ((t.outputsProp ho).2 ≠ t.outputsRef
      ∧ ∀ v, ((t.outputsProp ho).1.write (t.outputsProp ho).2 v).read t.outputsRef
          = ho.read t.outputsRef) :=
  ⟨pyCopy_fresh hm s.messagesRef hmv, pyCopy_fresh ht s.tasksRef htv,
   pyCopy_fresh ha s.activeToolsRef hav, pyCopy_fresh ho t.outputsRef hov⟩

/-- Witness for `accessors_return_defensive_copies` on singleton heaps. -/
theorem accessors_return_defensive_copies_witness :
    ((SessionObj.messagesProp ⟨0, 0, 0⟩ ⟨[[]]⟩).2 ≠ (0 : Nat)
      ∧ ∀ v, ((SessionObj.messagesProp ⟨0, 0, 0⟩ ⟨[[]]⟩).1.write
          (SessionObj.messagesProp ⟨0, 0, 0⟩ ⟨[[]]⟩).2 v).read 0
          = PyListHeap.read ⟨[[]]⟩ 0)
    ∧ ((SessionObj.tasksProp ⟨0, 0, 0⟩ ⟨[[]]⟩).2 ≠ (0 : Nat)
      ∧ ∀ v, ((SessionObj.tasksProp ⟨0, 0, 0⟩ ⟨[[]]⟩).1.write
          (SessionObj.tasksProp ⟨0, 0, 0⟩ ⟨[[]]⟩).2 v).read 0
          = PyListHeap.read ⟨[[]]⟩ 0)
    ∧ ((SessionObj.activeToolsProp ⟨0, 0, 0⟩ ⟨[["a"]]⟩).2 ≠ (0 : Nat)
      ∧ ∀ v, ((SessionObj.activeToolsProp ⟨0, 0, 0⟩ ⟨[["a"]]⟩).1.write
          (SessionObj.activeToolsProp ⟨0, 0, 0⟩ ⟨[["a"]]⟩).2 v).read 0
          = PyListHeap.read ⟨[["a"]]⟩ 0)
    ∧ ((TaskObj.outputsProp ⟨0⟩ ⟨[[⟨"text", "x"⟩]]⟩).2 ≠ (0 : Nat)
      ∧ ∀ v, ((TaskObj.outputsProp ⟨0⟩ ⟨[[⟨"text", "x"⟩]]⟩).1.write
          (TaskObj.outputsProp ⟨0⟩ ⟨[[⟨"text", "x"⟩]]⟩).2 v).read 0
          = PyListHeap.read ⟨[[⟨"text", "x"⟩]]⟩ 0) :=
  accessors_return_defensive_copies ⟨[[]]⟩ ⟨[[]]⟩ ⟨[["a"]]⟩ ⟨[[⟨"text", "x"⟩]]⟩
    ⟨0, 0, 0⟩ ⟨0⟩ (by decide) (by decide) (by decide) (by decide)

end ContextKit

namespace ContextKit

/-- C3 (code bug): the claim describes the intended behavior and the manager
path realizes it — `AssistantSessionManager.send_message` hands the agent
`messages[:-1]`, so the provider input is the system prompt, the mapped prior
history, then the new user message exactly once. The application-layer path
diverges by a wiring slip: `SendMessageUseCase.execute` hands the adapter the
full dict-record `get_conversation_history()` (including the just-added user
message) although the adapter's declared interface takes `Message` entities,
and the adapter's `msg.role` attribute read raises `AttributeError` on the
first record — which always exists, since the just-added user message is in
the history — so that path never builds any provider input and never invokes
the provider for any session and content. -/
theorem send_message_provider_input_bug (sp content mode userMsgId : String)
    (priorD : List ChatDict) (now : Nat) (s : Session) :
    managerProviderInput sp content mode priorD now =
      LCMessage.system sp ::
        (priorD.filterMap fun m =>
          if m.role = "user" then some (LCMessage.human m.content)
          else if m.role = "assistant" then some (LCMessage.ai m.content [])
          else none)
        ++ [LCMessage.human content]
    ∧ useCaseProviderInput s content userMsgId mode now =
        Except.error PyError.typeError := by
  constructor
  · simp [managerProviderInput, managerChatHistory, agentBuildMessages,
      List.dropLast_concat]
  · cases hm : s.messages <;>
      simp [useCaseProviderInput, Session.addMessage, Session.getConversationHistory,
        hm, adapterInvokeInput, adapterBuildMessages, adapterHistoryMessages,
        HistVal.roleAttr, bind, Except.bind]

/-- Saving a session makes it immediately retrievable under its id. -/
theorem memFindById_memSave (repo : MemRepo) (s : Session) :
    memFindById (memSave repo s) s.sessionId = some s := by
  simp [memFindById, memSave, List.find?]

/-- C8: for every `send_message` on an existing session, the repository state
returned by the call contains the session saved with the new user message
appended and exactly one new task appended; on the success path the task is
succeeded, and on the failure path the task was marked failed (its outputs
carry the error text) and the provider error is the re-raised result — in
both cases the save happens before the call returns. -/
theorem send_message_always_persists (repo : MemRepo) (sid content mode : String)
    (ai : String → List HistEntry → Except String String)
    (userMsgId assistantMsgId taskId : String) (now : Nat) (session : Session)
    (hfound : memFindById repo sid = some session) :
    ∃ saved,
      memFindById (executeSend repo sid content mode ai userMsgId assistantMsgId taskId now).1
          session.sessionId = some saved
      ∧ saved.messages.take (session.messages.length + 1) =
          session.messages ++ [Message.createUserMessage userMsgId content now [("mode", mode)]]
      ∧ ∃ t, saved.tasks = session.tasks ++ [t]
          ∧ ((∃ r, ai content ((session.addMessage
                  (Message.createUserMessage userMsgId content now [("mode", mode)])
                  now).getConversationHistory) = .ok r
                ∧ (executeSend repo sid content mode ai userMsgId assistantMsgId taskId now).2
                    = .ok t
                ∧ t.status = TaskStatus.succeeded)
            ∨ (∃ e, ai content ((session.addMessage
                  (Message.createUserMessage userMsgId content now [("mode", mode)])
                  now).getConversationHistory) = .error e
                ∧ (executeSend repo sid content mode ai userMsgId assistantMsgId taskId now).2
                    = .error e
                ∧ t.status = TaskStatus.failed
                ∧ Output.mk "error" e ∈ t.outputs)) := by
  cases hai : ai content ((session.addMessage
      (Message.createUserMessage userMsgId content now [("mode", mode)])
      now).getConversationHistory) with
  | ok r =>
    have hai' := hai
    simp [Session.addMessage, Session.getConversationHistory,
      Message.createUserMessage] at hai'
    have hstep : executeSend repo sid content mode ai userMsgId assistantMsgId taskId now =
        (memSave repo { session with
            messages := session.messages ++
              [Message.createUserMessage userMsgId content now [("mode", mode)],
               Message.createAssistantMessage assistantMsgId r now]
            tasks := session.tasks ++
              [⟨taskId, TaskActionType.prompt, TaskStatus.succeeded, now,
                some now, some now, [⟨"text", r⟩]⟩]
            lastActivityAt := now },
          Except.ok ⟨taskId, TaskActionType.prompt, TaskStatus.succeeded, now,
            some now, some now, [⟨"text", r⟩]⟩) := by
      simp [executeSend, hfound, hai', Task.start, Task.create, Task.succeed,
        Session.addMessage, Session.addTask, Session.replaceLastTask,
        Session.getConversationHistory, Message.createUserMessage,
        List.dropLast_concat]
    refine ⟨{ session with
        messages := session.messages ++
          [Message.createUserMessage userMsgId content now [("mode", mode)],
           Message.createAssistantMessage assistantMsgId r now]
        tasks := session.tasks ++
          [⟨taskId, TaskActionType.prompt, TaskStatus.succeeded, now,
            some now, some now, [⟨"text", r⟩]⟩]
        lastActivityAt := now }, ?_, ?_,
      ⟨taskId, TaskActionType.prompt, TaskStatus.succeeded, now,
        some now, some now, [⟨"text", r⟩]⟩, rfl,
      Or.inl ⟨r, rfl, by rw [hstep], rfl⟩⟩
    · rw [hstep]
      exact memFindById_memSave repo _
    · show List.take (session.messages.length + 1)
        (session.messages ++
          [Message.createUserMessage userMsgId content now [("mode", mode)],
           Message.createAssistantMessage assistantMsgId r now]) = _
      rw [show session.messages ++
          [Message.createUserMessage userMsgId content now [("mode", mode)],
           Message.createAssistantMessage assistantMsgId r now] =
          (session.messages ++
            [Message.createUserMessage userMsgId content now [("mode", mode)]]) ++
            [Message.createAssistantMessage assistantMsgId r now] by simp]
      exact List.take_left' (by simp)
  | error e =>
    have hai' := hai
    simp [Session.addMessage, Session.getConversationHistory,
      Message.createUserMessage] at hai'
    have hstep : executeSend repo sid content mode ai userMsgId assistantMsgId taskId now =
        (memSave repo { session with
            messages := session.messages ++
              [Message.createUserMessage userMsgId content now [("mode", mode)]]
            tasks := session.tasks ++
              [⟨taskId, TaskActionType.prompt, TaskStatus.failed, now,
                some now, some now, [⟨"error", e⟩]⟩]
            lastActivityAt := now },
          Except.error e) := by
      simp [executeSend, hfound, hai', Task.start, Task.create, Task.fail,
        Session.addMessage, Session.addTask, Session.replaceLastTask,
        Session.getConversationHistory, Message.createUserMessage,
        List.dropLast_concat]
    refine ⟨{ session with
        messages := session.messages ++
          [Message.createUserMessage userMsgId content now [("mode", mode)]]
        tasks := session.tasks ++
          [⟨taskId, TaskActionType.prompt, TaskStatus.failed, now,
            some now, some now, [⟨"error", e⟩]⟩]
        lastActivityAt := now }, ?_, ?_,
      ⟨taskId, TaskActionType.prompt, TaskStatus.failed, now,
        some now, some now, [⟨"error", e⟩]⟩, rfl,
      Or.inr ⟨e, rfl, by rw [hstep], rfl, List.mem_singleton.mpr rfl⟩⟩
    · rw [hstep]
      exact memFindById_memSave repo _
    · exact List.take_of_length_le (by simp)

end ContextKit

namespace ContextKit

/-- The iso rendering parses back to the instant it rendered. -/
theorem parseIso_isoFormat (n : Nat) : parseIso (isoFormat n) = some n := by
  simp [parseIso, isoFormat, List.all_eq_true, List.mem_replicate]

/-- Stored iso timestamps deserialize to the original instant. -/
theorem fromIso_isoFormat (n : Nat) :
    Json.fromIso (Json.str (isoFormat n)) = Except.ok n := by
  simp [Json.fromIso, parseIso_isoFormat]

/-- Serialized metadata maps deserialize to the original map. -/
theorem metadataFields_roundtrip (md : List (String × String)) :
    metadataFields (md.map fun p => (p.1, Json.str p.2)) = Except.ok md := by
  induction md with
  | nil => rfl
  | cons p ps ih =>
    cases p with
    | mk k v =>
      simp only [List.map_cons, metadataFields, ih]
      rfl

/-- Serialized string lists deserialize to the original list. -/
theorem strListElems_roundtrip (xs : List String) :
    strListElems (xs.map Json.str) = Except.ok xs := by
  induction xs with
  | nil => rfl
  | cons x rest ih =>
    simp only [List.map_cons, strListElems, ih]
    rfl

/-- Serialized output records deserialize to the original record. -/
theorem asOutput_roundtrip (o : Output) :
    Json.asOutput (serializeOutput o) = Except.ok o := rfl

/-- Serialized output lists deserialize to the original list. -/
theorem deserializeOutputs_roundtrip (outs : List Output) :
    deserializeOutputs (outs.map serializeOutput) = Except.ok outs := by
  induction outs with
  | nil => rfl
  | cons o rest ih =>
    simp only [List.map_cons, deserializeOutputs, asOutput_roundtrip, ih]
    rfl

/-- Enum value strings parse back to the status that produced them. -/
theorem taskStatus_ofValue_value (s : TaskStatus) :
    TaskStatus.ofValue s.value = some s := by
  cases s <;> rfl

/-- Enum value strings parse back to the action type that produced them. -/
theorem taskActionType_ofValue_value (a : TaskActionType) :
    TaskActionType.ofValue a.value = some a := by
  cases a <;> rfl

/-- A serialized message deserializes to the original message, provided its
role is one of the validated roles. -/
theorem deserializeMessage_roundtrip (m : Message) (h : m.role ∈ validRoles) :
    deserializeMessage (serializeMessage m) = Except.ok m := by
  simp [deserializeMessage, serializeMessage, Json.index, Json.getOr, Json.asStr,
    Json.asRole, Json.asMetadata, fromIso_isoFormat, metadataFields_roundtrip, h,
    List.lookup, bind, Except.bind]

/-- Serialized message lists deserialize to the original list when all roles
are valid. -/
theorem deserializeMessages_roundtrip (ms : List Message)
    (h : ∀ m ∈ ms, m.role ∈ validRoles) :
    deserializeMessages (ms.map serializeMessage) = Except.ok ms := by
  induction ms with
  | nil => rfl
  | cons m rest ih =>
    have hm := h m (by simp)
    have hrest := ih fun x hx => h x (by simp [hx])
    simp only [List.map_cons, deserializeMessages,
      deserializeMessage_roundtrip m hm, hrest]
    rfl

/-- A serialized task deserializes to the task with its first-response and
completion instants cleared: the serializer never writes them and the
deserializer leaves the constructor defaults. -/
theorem deserializeTask_roundtrip (t : Task) :
    deserializeTask (serializeTask t) = Except.ok (scrubTask t) := by
  simp [deserializeTask, serializeTask, Json.index, Json.getOr, Json.asStr,
    Json.asActionType, Json.asStatus, Json.asArr, fromIso_isoFormat,
    taskStatus_ofValue_value, taskActionType_ofValue_value,
    deserializeOutputs_roundtrip, scrubTask, List.lookup, bind, Except.bind]

/-- Serialized task lists deserialize to the scrubbed originals. -/
theorem deserializeTasks_roundtrip (ts : List Task) :
    deserializeTasks (ts.map serializeTask) = Except.ok (ts.map scrubTask) := by
  induction ts with
  | nil => rfl
  | cons t rest ih =>
    simp only [List.map_cons, deserializeTasks, deserializeTask_roundtrip t, ih]
    rfl

/-- A serialized provider config deserializes to the original config when the
config satisfies the constructor invariants. -/
theorem deserializeProviderConfig_roundtrip (c : ProviderConfig)
    (hv : c.valid = true) :
    deserializeProviderConfig (serializeProviderConfig c) = Except.ok c := by
  simp only [ProviderConfig.valid, Bool.and_eq_true, decide_eq_true_eq] at hv
  obtain ⟨⟨⟨htemp, hmax⟩, hend⟩, hmodel⟩ := hv
  cases hmt : c.maxTokens with
  | none =>
    simp [deserializeProviderConfig, serializeProviderConfig, Json.index,
      Json.asStr, Json.asNum, Json.asMaxTokens, hmt, ProviderConfig.make,
      htemp, hend, hmodel, List.lookup, bind, Except.bind]
    rw [← hmt]
  | some mtok =>
    rw [hmt] at hmax
    have hmax' : ¬ mtok ≤ 0 := by simpa using hmax
    simp [deserializeProviderConfig, serializeProviderConfig, Json.index,
      Json.asStr, Json.asNum, Json.asMaxTokens, hmt, ProviderConfig.make,
      htemp, hend, hmodel, hmax', List.lookup, bind, Except.bind]
    rw [← hmt]

/-- A serialized well-formed session deserializes to the session with its
tasks scrubbed of the unserialized instants. -/
theorem deserializeSession_roundtrip (s : Session) (hwf : s.wf = true) :
    deserializeSession (serializeSession s) = Except.ok (scrubSession s) := by
  simp only [Session.wf, Bool.and_eq_true, decide_eq_true_eq, List.all_eq_true] at hwf
  obtain ⟨⟨hpc, hroles⟩, hsp⟩ := hwf
  have hmsgs : deserializeMessages (s.messages.map serializeMessage) =
      Except.ok s.messages :=
    deserializeMessages_roundtrip s.messages fun m hm => by
      simpa using hroles m hm
  simp [deserializeSession, serializeSession, Json.index, Json.asStr,
    Json.asStrList, Json.asArr, fromIso_isoFormat, strListElems_roundtrip,
    deserializeProviderConfig_roundtrip s.providerConfig hpc, hmsgs,
    deserializeTasks_roundtrip, hsp, scrubSession, List.lookup, bind, Except.bind]

end ContextKit

namespace ContextKit

/-- C2 (counterexample): the round-trip claim fails on Backend B — the Redis
serializer writes neither `first_response_at` nor `completed_at` for tasks,
so a session holding one message and one started task (whose first-response
instant is set) does not come back field-for-field equal. -/
theorem repository_roundtrip_counterexample :
    redisFindById (redisSave [] sampleSession) "s1" =
      Except.ok (some (scrubSession sampleSession))
    ∧ scrubSession sampleSession ≠ sampleSession := by
  exact ⟨rfl, by decide⟩

/-- C2 (amended): for a session with at least one message and one task,
Backend A (in-memory) round-trips the session exactly; Backend B (serialize
to Redis, deserialize on read) round-trips every field except the tasks'
first-response and completion instants, which are not serialized and come
back unset. The well-formedness hypothesis records the invariants every
session built through the validated constructors has (valid provider config,
validated roles, non-empty system prompt). -/
theorem repository_roundtrip (repo : MemRepo) (store : RedisStore) (s : Session)
    (hm : s.messages ≠ []) (ht : s.tasks ≠ []) (hwf : s.wf = true) :
    memFindById (memSave repo s) s.sessionId = some s
    ∧ redisFindById (redisSave store s) s.sessionId =
        Except.ok (some (scrubSession s)) := by
  refine ⟨memFindById_memSave repo s, ?_⟩
  simp [redisFindById, redisSave, List.find?,
    deserializeSession_roundtrip s hwf, caughtByFindById]

/-- Witness for `repository_roundtrip` at the concrete sample session. -/
theorem repository_roundtrip_witness :
    memFindById (memSave [] sampleSession) sampleSession.sessionId =
      some sampleSession
    ∧ redisFindById (redisSave [] sampleSession) sampleSession.sessionId =
        Except.ok (some (scrubSession sampleSession)) :=
  repository_roundtrip [] [] sampleSession (by decide) (by decide) (by decide)

end ContextKit

namespace ContextKit

/-- C7 (counterexample): a stored record that is valid JSON but not an object
(here the empty array) makes `find_by_id` raise: subscripting the non-dict
deserializer input fails with a `TypeError`, which is outside the caught
`(json.JSONDecodeError, KeyError, ValueError)` classes, refuting the claim
that corrupt records are always returned as not-found. -/
theorem redis_find_by_id_raises_counterexample :
    redisFindById [("session:s1", StoredVal.json (Json.arr []))] "s1" =
      Except.error PyError.typeError := rfl

/-- C7 (amended): `find_by_id` returns not-found for a missing key, for a
record that fails JSON parsing, and for corruption that surfaces as one of
the caught classes (such as a missing field's `KeyError`); corruption whose
failure is a typing error — a JSON root that is not an object, for example —
escapes as a raised `TypeError`, so every call either returns a session,
returns not-found, or raises that typing error. -/
theorem redis_find_by_id_corruption (store : RedisStore) (sid : String) :
    (redisFindById store sid = Except.ok none
      ∨ (∃ s, redisFindById store sid = Except.ok (some s))
      ∨ redisFindById store sid = Except.error PyError.typeError)
    ∧ ((store.find? fun p => p.1 = redisKey sid) = none →
        redisFindById store sid = Except.ok none)
    ∧ (∀ raw, ((store.find? fun p => p.1 = redisKey sid).map Prod.snd =
          some (StoredVal.malformed raw)) →
        redisFindById store sid = Except.ok none)
    ∧ (∀ fields, ((store.find? fun p => p.1 = redisKey sid).map Prod.snd =
          some (StoredVal.json (Json.obj fields))) →
        fields.lookup "provider_config" = none →
        redisFindById store sid = Except.ok none)
    ∧ (∀ j, ((store.find? fun p => p.1 = redisKey sid).map Prod.snd =
          some (StoredVal.json j)) →
        (∀ fields, j ≠ Json.obj fields) →
        redisFindById store sid = Except.error PyError.typeError) := by
  refine ⟨?_, ?_, ?_, ?_, ?_⟩
  · unfold redisFindById
    cases hl : (store.find? fun p => p.1 = redisKey sid).map Prod.snd with
    | none => exact Or.inl rfl
    | some v =>
      cases v with
      | malformed raw => exact Or.inl rfl
      | json j =>
        cases hd : deserializeSession j with
        | ok s => exact Or.inr (Or.inl ⟨s, by simp [hd]⟩)
        | error e =>
          cases e with
          | valueError => exact Or.inl (by simp [hd, caughtByFindById])
          | keyError => exact Or.inl (by simp [hd, caughtByFindById])
          | jsonDecodeError => exact Or.inl (by simp [hd, caughtByFindById])
          | typeError => exact Or.inr (Or.inr (by simp [hd, caughtByFindById]))
  · intro hl
    unfold redisFindById
    rw [hl]
    rfl
  · intro raw hl
    unfold redisFindById
    rw [hl]
  · intro fields hl hf
    unfold redisFindById
    rw [hl]
    simp [deserializeSession, Json.index, hf, caughtByFindById, bind, Except.bind]
  · intro j hl hne
    unfold redisFindById
    rw [hl]
    cases j with
    | str s => rfl
    | num q => rfl
    | null => rfl
    | arr xs => rfl
    | obj fields => exact absurd rfl (hne fields)

/-- Witness for `redis_find_by_id_corruption`: a stored object record missing
its `provider_config` field is returned as not-found. -/
theorem redis_find_by_id_corruption_witness :
    redisFindById [("session:s1", StoredVal.json (Json.obj []))] "s1" =
      Except.ok none :=
  (redis_find_by_id_corruption [("session:s1", StoredVal.json (Json.obj []))]
    "s1").2.2.2.1 [] rfl rfl

/-- Witness for `send_message_always_persists`: a fresh session, the message
"Hello" and a stub AI port returning "Stub response". -/
theorem send_message_always_persists_witness :
    ∃ saved,
      memFindById (executeSend c8Repo "s" "Hello" "general" c8Ai "m1" "m2" "t1" 1).1
          c8Session.sessionId = some saved
      ∧ saved.messages.take (c8Session.messages.length + 1) =
          c8Session.messages ++ [Message.createUserMessage "m1" "Hello" 1 [("mode", "general")]]
      ∧ ∃ t, saved.tasks = c8Session.tasks ++ [t]
          ∧ ((∃ r, c8Ai "Hello" ((c8Session.addMessage
                  (Message.createUserMessage "m1" "Hello" 1 [("mode", "general")])
                  1).getConversationHistory) = .ok r
                ∧ (executeSend c8Repo "s" "Hello" "general" c8Ai "m1" "m2" "t1" 1).2
                    = .ok t
                ∧ t.status = TaskStatus.succeeded)
            ∨ (∃ e, c8Ai "Hello" ((c8Session.addMessage
                  (Message.createUserMessage "m1" "Hello" 1 [("mode", "general")])
                  1).getConversationHistory) = .error e
                ∧ (executeSend c8Repo "s" "Hello" "general" c8Ai "m1" "m2" "t1" 1).2
                    = .error e
                ∧ t.status = TaskStatus.failed
                ∧ Output.mk "error" e ∈ t.outputs)) :=
  send_message_always_persists c8Repo "s" "Hello" "general" c8Ai "m1" "m2" "t1" 1
    c8Session rfl

end ContextKit
